import Mathlib

/-!
# Komorebi MindMate — session lifecycle controller, verified model

A shallow embedding of the session-lifecycle controller of the `MainSession`
page component and of the backend stored procedure `complete_chat_session`.

Conventions of the embedding:

* JavaScript `Date.now()` readings are integers (milliseconds); each user
  event carries the wall-clock reading `Ctx.now` taken when the event fires.
* React `useState` state is gathered in `ControllerState`; an event handler
  is a function from the pre-event state to the post-event state.  Reads of
  state variables inside a handler body use the *render closure* value (the
  state at handler entry), exactly as in the source; functional updates
  (`setMessages (prev => ...)`) operate on the threaded state.
* The two browser storage scopes (`localStorage` for registered users,
  `sessionStorage` for guests) are two `StoreState` records; the
  identity-scoped adapter `storage.get/set` of the component selects the
  scope from `Ctx.user`.
* The `useEffect` that re-persists the message buffer after each commit is
  the function `flushMessages`, applied at the end of any handler that
  changes `messages`.
* Remote calls are parameters of the handlers: `remote : Option String` is
  the outcome of the chat service (`none` = the call threw), and the insight
  path takes the remote quote, a random seed (standing for the sequence of
  `Math.random()` draws, discretized) and the captured video still.
-/

namespace Komorebi

/-- Message author, `role ∈ {user, assistant}`. -/
inductive Role where
  | user
  | assistant
deriving Repr, DecidableEq

instance : BEq Role := ⟨fun a b => decide (a = b)⟩

/-- Session type selected from the time of day. -/
inductive SType where
  | morning
  | evening
deriving Repr, DecidableEq

instance : BEq SType := ⟨fun a b => decide (a = b)⟩

/-- A chat message. `timestamp` is a millisecond epoch instant. -/
structure Message where
  id : String
  content : String
  role : Role
  timestamp : Int
deriving Repr, DecidableEq

/-- The `SessionLimits` record persisted under the `session-limits` key. -/
structure SessionLimits where
  morningCompleted : Bool
  eveningCompleted : Bool
  messagesUsed : Nat
  maxMessages : Nat
  lastMorningSession : Option Int := none
  lastEveningSession : Option Int := none
deriving Repr, DecidableEq

/-- An insight card generated from a session. -/
structure InsightCard where
  id : String
  quote : String
  type : SType
  sessionId : String
  createdAt : Int
  sceneType : String
  videoStillUrl : Option String := none
deriving Repr, DecidableEq

/-- An archived chat session (the `komorebi-chat-sessions` list entries). -/
structure ArchivedChatSession where
  id : String
  type : SType
  messages : List Message
  createdAt : Int
  sceneType : String
  messageCount : Nat
  duration : Int
  insightCardId : Option String := none
deriving Repr, DecidableEq

/-- One browser storage scope (either `localStorage` or `sessionStorage`),
restricted to the keys the controller uses. `none` models an absent key
(or the explicit `null` the controller writes). -/
structure StoreState where
  sessionStartTime : Option Int := none
  currentSessionMessages : Option (List Message) := none
  sessionLimits : Option SessionLimits := none
  chatSessions : List ArchivedChatSession := []
  insightCards : List InsightCard := []
deriving Repr, DecidableEq

/-- Ambient per-event context: the authenticated identity flags, the
subscription tier, the wall clock at the event, and the values the
component derives once per render from `timeUtils` (which lives outside
the given sources; `tlim` and `greeting` stand for
`getSessionTimeLimit(is_pro)` in minutes and `timeOfDay.greeting`). -/
structure Ctx where
  user : Bool
  isGuest : Bool
  isPro : Bool
  now : Int
  tlim : Int
  greeting : String
  sessionType : SType
deriving Repr, DecidableEq

/-- The `useState` state of the `MainSession` component, plus the two
storage scopes. -/
structure ControllerState where
  messages : List Message
  isLoading : Bool
  insightCard : Option InsightCard
  sessionStartTime : Option Int
  currentScene : String
  userMessagesSinceLastInsight : Nat
  showGenerateInsightButton : Bool
  isGeneratingInsight : Bool
  sessionLimits : SessionLimits
  localStore : StoreState
  sessionStore : StoreState
deriving Repr, DecidableEq

/-! ## The identity-scoped storage adapter

`storage.get`/`storage.set` of the component: registered users read and
write `localStorage`, everyone else (guest or anonymous) reads and writes
`sessionStorage`. One getter/setter pair per key used by the controller. -/

/-- Scoped read of the `session-start-time` key. -/
def scopedGetStart (ctx : Ctx) (s : ControllerState) : Option Int :=
  if ctx.user then s.localStore.sessionStartTime else s.sessionStore.sessionStartTime

/-- Scoped write of the `session-start-time` key. -/
def scopedSetStart (ctx : Ctx) (s : ControllerState) (v : Option Int) : ControllerState :=
  if ctx.user then { s with localStore := { s.localStore with sessionStartTime := v } }
  else { s with sessionStore := { s.sessionStore with sessionStartTime := v } }

/-- Scoped read of the `current-session-messages` key. -/
def scopedGetBuffer (ctx : Ctx) (s : ControllerState) : Option (List Message) :=
  if ctx.user then s.localStore.currentSessionMessages else s.sessionStore.currentSessionMessages

/-- Scoped write of the `current-session-messages` key. -/
def scopedSetBuffer (ctx : Ctx) (s : ControllerState) (v : Option (List Message)) :
    ControllerState :=
  if ctx.user then { s with localStore := { s.localStore with currentSessionMessages := v } }
  else { s with sessionStore := { s.sessionStore with currentSessionMessages := v } }

/-- Scoped write of the `session-limits` key. -/
def scopedSetLimits (ctx : Ctx) (s : ControllerState) (v : Option SessionLimits) :
    ControllerState :=
  if ctx.user then { s with localStore := { s.localStore with sessionLimits := v } }
  else { s with sessionStore := { s.sessionStore with sessionLimits := v } }

/-- Scoped read of the `komorebi-chat-sessions` key (default `[]`). -/
def scopedGetSessions (ctx : Ctx) (s : ControllerState) : List ArchivedChatSession :=
  if ctx.user then s.localStore.chatSessions else s.sessionStore.chatSessions

/-- Scoped write of the `komorebi-chat-sessions` key. -/
def scopedSetSessions (ctx : Ctx) (s : ControllerState) (v : List ArchivedChatSession) :
    ControllerState :=
  if ctx.user then { s with localStore := { s.localStore with chatSessions := v } }
  else { s with sessionStore := { s.sessionStore with chatSessions := v } }

/-- Scoped read of the `insight-cards` key (default `[]`). -/
def scopedGetInsights (ctx : Ctx) (s : ControllerState) : List InsightCard :=
  if ctx.user then s.localStore.insightCards else s.sessionStore.insightCards

/-- Scoped write of the `insight-cards` key. -/
def scopedSetInsights (ctx : Ctx) (s : ControllerState) (v : List InsightCard) :
    ControllerState :=
  if ctx.user then { s with localStore := { s.localStore with insightCards := v } }
  else { s with sessionStore := { s.sessionStore with insightCards := v } }

/-! ## Time policy -/

/-- Modelled from the spec: `hasCompletedToday(lastTimestamp?)` of
`utils/timeUtils` (not among the given sources) is true iff the timestamp
falls on the current calendar day; days are the floor of the millisecond
instant by 86,400,000. -/
def hasCompletedTodaysSession (t : Option Int) (now : Int) : Bool :=
  match t with
  | none => false
  | some ts => decide (ts.fdiv 86400000 = now.fdiv 86400000)

/-- `hasCompletedBothToday` of the component: registered user and both the
morning and the evening session already completed today. -/
def hasCompletedBothToday (ctx : Ctx) (s : ControllerState) : Bool :=
  ctx.user &&
    (hasCompletedTodaysSession s.sessionLimits.lastMorningSession ctx.now &&
     hasCompletedTodaysSession s.sessionLimits.lastEveningSession ctx.now)

/-- `isSessionExpired` of the component: non-Pro tier, a session has
started, and the elapsed time exceeds the tier time limit (minutes). -/
def isSessionExpired (ctx : Ctx) (s : ControllerState) : Bool :=
  !ctx.isPro &&
    (match s.sessionStartTime with
     | none => false
     | some t => decide (ctx.now - t > ctx.tlim * 60 * 1000))

/-- The page-level view the component renders, decided in source order:
the `LimitReached` early return, then the `Expired` early return, then the
active chat view. -/
inductive ViewState where
  | limitReached
  | expired
  | active
deriving Repr, DecidableEq

/-- `MainSession`'s top-level render dispatch. -/
def renderView (ctx : Ctx) (s : ControllerState) : ViewState :=
  if ctx.user && !ctx.isPro && hasCompletedBothToday ctx s then .limitReached
  else if s.sessionStartTime.isSome && isSessionExpired ctx s then .expired
  else .active

/-! ## Shared helpers of the handlers -/

/-- `saveSessionLimits`: sets the React state and, for a registered or
guest identity, persists the record under the scoped `session-limits`
key. -/
def saveSessionLimits (ctx : Ctx) (s : ControllerState) (limits : SessionLimits) :
    ControllerState :=
  let s1 := { s with sessionLimits := limits }
  if ctx.user || ctx.isGuest then scopedSetLimits ctx s1 (some limits) else s1

/-- The message-buffer persistence `useEffect`: after a commit in which
`messages` changed and is non-empty, the full list is re-saved under the
scoped `current-session-messages` key. -/
def flushMessages (ctx : Ctx) (s : ControllerState) : ControllerState :=
  if s.messages.length > 0 then scopedSetBuffer ctx s (some s.messages) else s

/-- JavaScript `Math.round((endMs - startMs) / (1000 * 60))` on an integer
millisecond difference: `Math.round x = ⌊x + 1/2⌋`. -/
def roundMinutes (d : Int) : Int :=
  (d + 30000).fdiv 60000

/-- The 50-entry cap applied when appending to the archived-session list:
`updated = existing ++ [x]; if (updated.length > 50) updated.splice(0,
updated.length - 50)` — entries beyond 50 are evicted from the front. -/
def appendCapped (l : List ArchivedChatSession) (x : ArchivedChatSession) :
    List ArchivedChatSession :=
  let u := l ++ [x]
  if u.length > 50 then u.drop (u.length - 50) else u

/-- The fixed apology the controller substitutes when the remote chat call
throws. -/
def apologyText : String :=
  "I\x27m having trouble connecting right now. Let\x27s try again in a moment."

/-- The gating condition at the top of `handleSendMessage`: loading, or a
non-Pro user at (or beyond) the message cap, or the session expired. -/
def sendBlocked (ctx : Ctx) (s : ControllerState) : Bool :=
  s.isLoading ||
    (!ctx.isPro && decide (s.sessionLimits.messagesUsed ≥ s.sessionLimits.maxMessages)) ||
    isSessionExpired ctx s

/-! ## Message send -/

/-- The optimistically appended user message of a send event. -/
def sentUserMessage (ctx : Ctx) (content : String) : Message :=
  { id := toString ctx.now, content := content, role := Role.user, timestamp := ctx.now }

/-- The assistant message appended after the remote chat call: the
service's reply on success, the fixed apology when the call threw. -/
def assistantReply (ctx : Ctx) (remote : Option String) : Message :=
  match remote with
  | some msg =>
      { id := toString (ctx.now + 1), content := msg, role := Role.assistant,
        timestamp := ctx.now }
  | none =>
      { id := toString (ctx.now + 1), content := apologyText, role := Role.assistant,
        timestamp := ctx.now }

/-- `handleSendMessage`. `remote` is the outcome of
`aiChatService.sendMessage` (`some reply`, or `none` when the call threw,
in which case the fixed apology is appended instead of propagating the
error). Blocked sends return the state unchanged (silent no-op). -/
def handleSendMessage (ctx : Ctx) (s : ControllerState) (content : String)
    (remote : Option String) : ControllerState :=
  if sendBlocked ctx s then s
  else
    let s1 :=
      if s.sessionStartTime.isNone then
        scopedSetStart ctx { s with sessionStartTime := some ctx.now } (some ctx.now)
      else s
    let s2 := { s1 with messages := s1.messages ++ [sentUserMessage ctx content],
                        isLoading := true }
    let newMessagesUsed := s.sessionLimits.messagesUsed + 1
    let newCount := s.userMessagesSinceLastInsight + 1
    let s3 := saveSessionLimits ctx { s2 with userMessagesSinceLastInsight := newCount }
      { s.sessionLimits with messagesUsed := newMessagesUsed }
    let s4 :=
      if newCount % 5 == 0 && decide (newCount > 0) then
        { s3 with showGenerateInsightButton := true }
      else s3
    let s5 := { s4 with messages := s4.messages ++ [assistantReply ctx remote],
                        isLoading := false }
    flushMessages ctx s5

/-! ## Insight generation -/

/-- Lower-casing a string, as JavaScript `toLowerCase` on the ASCII range. -/
def lowerStr (s : String) : String :=
  ⟨s.data.map Char.toLower⟩

/-- `pat` is a leading segment of `hay`. -/
def leadsWith : List Char → List Char → Bool
  | _, [] => true
  | [], _ :: _ => false
  | c :: cs, p :: ps => c == p && leadsWith cs ps

/-- `pat` occurs as a contiguous segment of `hay`. -/
def hasSub (pat : List Char) : List Char → Bool
  | [] => pat.isEmpty
  | c :: cs => leadsWith (c :: cs) pat || hasSub pat cs

/-- JavaScript `String.prototype.includes`. -/
def strIncludes (s pat : String) : Bool :=
  hasSub pat.data s.data

/-- `Math.floor(Math.random() * l.length)` with the random draw abstracted
by a seed: index `seed % l.length` of the pool. -/
def pickQuote (seed : Nat) (l : List String) : String :=
  l.getD (seed % l.length) ""

/-- The stress-keyword quote pool, per session type. -/
def stressInsights : SType → List String
  | .morning =>
      ["Your awareness of stress is the first step toward managing it with grace.",
       "Even in challenging moments, you have the strength to find your center.",
       "Today\x27s difficulties are tomorrow\x27s wisdom in disguise."]
  | .evening =>
      ["You\x27ve carried today\x27s challenges with more resilience than you realize.",
       "Stress reveals our capacity for growth and adaptation.",
       "Every difficult day teaches us something valuable about our inner strength."]

/-- The positive-affect quote pool, per session type. -/
def positiveInsights : SType → List String
  | .morning =>
      ["Gratitude is the foundation upon which beautiful days are built.",
       "Your positive energy is a gift you give to yourself and the world.",
       "Joy shared in the morning multiplies throughout the day."]
  | .evening =>
      ["Today\x27s joy is a reminder of life\x27s endless capacity for beauty.",
       "Gratitude transforms ordinary moments into extraordinary memories.",
       "Your appreciation for life\x27s gifts illuminates the path forward."]

/-- The work-keyword quote pool, per session type. -/
def workInsights : SType → List String
  | .morning =>
      ["Your work is an expression of your values and talents.",
       "Purpose-driven action creates meaning in even the smallest tasks.",
       "Today\x27s efforts are building tomorrow\x27s opportunities."]
  | .evening =>
      ["Your professional journey reflects your commitment to growth and contribution.",
       "Work challenges are invitations to discover new aspects of your capabilities.",
       "Balance between effort and rest creates sustainable success."]

/-- The catch-all quote pool, per session type. -/
def generalInsights : SType → List String
  | .morning =>
      ["Today is a canvas waiting for your unique brushstrokes of intention.",
       "Your awareness of this moment is the first step toward meaningful change.",
       "Small, intentional actions create the foundation for extraordinary days.",
       "You have everything within you to make today beautiful.",
       "Clarity comes not from having all the answers, but from asking the right questions."]
  | .evening =>
      ["Growth happens in the space between challenge and reflection.",
       "Every experience today was a teacher, even the difficult ones.",
       "You showed up today, and that itself is worthy of celebration.",
       "Tomorrow\x27s possibilities are born from today\x27s insights.",
       "Your journey is uniquely yours, and every step has value."]

/-- The lower-cased concatenation (space-joined) of the user-authored
message contents, on which the fallback tests its keyword groups. -/
def conversationTextOf (sessionMessages : List Message) : String :=
  lowerStr (String.intercalate " "
    ((sessionMessages.filter (fun m => m.role == Role.user)).map (fun m => m.content)))

/-- `simulateInsightGeneration`, the local fallback used when the remote
insight service fails: keyword groups are tested in fixed priority order
(stress, then positive affect, then work, else general) and one quote is
picked from the matched pool. -/
def simulateInsightGeneration (sessionMessages : List Message) (ty : SType) (seed : Nat) :
    String :=
  let conversationText := conversationTextOf sessionMessages
  if strIncludes conversationText "stress" || strIncludes conversationText "anxious" ||
      strIncludes conversationText "overwhelmed" then
    pickQuote seed (stressInsights ty)
  else if strIncludes conversationText "grateful" || strIncludes conversationText "happy" ||
      strIncludes conversationText "excited" then
    pickQuote seed (positiveInsights ty)
  else if strIncludes conversationText "work" || strIncludes conversationText "career" ||
      strIncludes conversationText "job" then
    pickQuote seed (workInsights ty)
  else
    pickQuote seed (generalInsights ty)

/-! ## Archival -/

/-- `archiveCurrentSession`: archives the current session (greeting
excluded) with a back-reference to the given insight id; an immediate
no-op for a non-registered identity or a transcript of at most the
greeting. -/
def archiveCurrentSession (ctx : Ctx) (s : ControllerState) (sessionId : String)
    (insightId : Option String) : ControllerState :=
  if !ctx.user || decide (s.messages.length ≤ 1) then s
  else
    let sessionDuration : Option Int := s.sessionStartTime.map (fun st => roundMinutes (ctx.now - st))
    let archivedSession : ArchivedChatSession :=
      { id := sessionId
        type := ctx.sessionType
        messages := s.messages.filter (fun m => m.id ≠ "greeting")
        createdAt := s.sessionStartTime.getD ctx.now
        sceneType := s.currentScene
        messageCount := (s.messages.filter (fun m => m.role == Role.user)).length
        duration := sessionDuration.getD 0
        insightCardId := insightId }
    if ctx.user || ctx.isGuest then
      scopedSetSessions ctx s (appendCapped (scopedGetSessions ctx s) archivedSession)
    else s

/-- `generateInsightCard`. `remoteQuote` is the outcome of
`aiChatService.generateInsightCard` (`none` = the remote service threw, so
the local fallback quote is used); `videoStill` is the best-effort frame
capture. The new card is stored, persisted to the scoped insight list for
registered/guest identities, and the session is archived with a link to
the card. The two `Date.now()` reads for the insight and session ids are
modelled as the same event instant. -/
def generateInsightCard (ctx : Ctx) (s : ControllerState) (sessionMessages : List Message)
    (remoteQuote : Option String) (seed : Nat) (videoStill : Option String) :
    ControllerState :=
  let quote :=
    match remoteQuote with
    | some q => q
    | none => simulateInsightGeneration sessionMessages ctx.sessionType seed
  let insightId := toString ctx.now
  let sessionId := toString ctx.now
  let insight : InsightCard :=
    { id := insightId, quote := quote, type := ctx.sessionType, sessionId := sessionId,
      createdAt := ctx.now, sceneType := s.currentScene, videoStillUrl := videoStill }
  let s1 := { s with insightCard := some insight }
  let s2 :=
    if ctx.user || ctx.isGuest then
      scopedSetInsights ctx s1 (scopedGetInsights ctx s1 ++ [insight])
    else s1
  archiveCurrentSession ctx s2 sessionId (some insightId)

/-- The outcome of the `await generateInsightCard(...)` call inside
`handleGenerateInsightClick`: either it completes (with the given remote
outcome, random seed and frame capture), or an exception escapes it.  An
escaping exception can only originate in the browser externals (frame
capture / storage), which never touch the insight-offer flag or the
since-last-insight counter, so the `threw` branch keeps the pre-call
values of every field. -/
inductive GenOutcome where
  | ok (remoteQuote : Option String) (seed : Nat) (videoStill : Option String)
  | threw
deriving Repr, DecidableEq

/-- `handleGenerateInsightClick`: hides the offer button, generates the
card from the transcript minus the greeting, and resets the
since-last-insight counter; on an exception the button is re-shown and the
counter is left unchanged so the user may retry. -/
def handleGenerateInsightClick (ctx : Ctx) (s : ControllerState) (g : GenOutcome) :
    ControllerState :=
  let s0 := { s with isGeneratingInsight := true, showGenerateInsightButton := false }
  match g with
  | .ok remoteQuote seed videoStill =>
      let s1 := generateInsightCard ctx s0 (s0.messages.filter (fun m => m.id ≠ "greeting"))
        remoteQuote seed videoStill
      { s1 with userMessagesSinceLastInsight := 0, isGeneratingInsight := false }
  | .threw =>
      { s0 with showGenerateInsightButton := true, isGeneratingInsight := false }

/-! ## New session -/

/-- `handleNewSession`. If the outgoing transcript has more than the
greeting, it is archived and the limits record is updated with the
just-completed session type's timestamp; then the transcript is replaced
by a fresh greeting, the transient state is reset, the new start time is
written directly to `localStorage` (not through the scoped adapter), the
scoped message buffer is cleared, and the limits are saved once more —
spread from `sessionLimits` as captured by the handler's closure, i.e.
from the *entry* state, exactly as in the source. -/
def handleNewSession (ctx : Ctx) (s : ControllerState) : ControllerState :=
  let s1 :=
    if decide (s.messages.length > 1) then
      let sessionDuration : Int :=
        match s.sessionStartTime with
        | some st => roundMinutes (ctx.now - st)
        | none => 0
      let archivedSession : ArchivedChatSession :=
        { id := toString ctx.now
          type := ctx.sessionType
          messages := s.messages.filter (fun m => m.id ≠ "greeting")
          createdAt := s.sessionStartTime.getD ctx.now
          sceneType := s.currentScene
          messageCount := (s.messages.filter (fun m => m.role == Role.user)).length
          duration := sessionDuration
          insightCardId := s.insightCard.map (fun c => c.id) }
      let sA :=
        if ctx.user || ctx.isGuest then
          scopedSetSessions ctx s (appendCapped (scopedGetSessions ctx s) archivedSession)
        else s
      let updatedLimits :=
        if ctx.sessionType == SType.morning then
          { s.sessionLimits with messagesUsed := 0, lastMorningSession := some ctx.now }
        else
          { s.sessionLimits with messagesUsed := 0, lastEveningSession := some ctx.now }
      saveSessionLimits ctx sA updatedLimits
    else s
  let greetingMessage : Message :=
    { id := "greeting", content := ctx.greeting, role := Role.assistant, timestamp := ctx.now }
  let s2 := { s1 with messages := [greetingMessage], insightCard := none,
                      userMessagesSinceLastInsight := 0, showGenerateInsightButton := false,
                      sessionStartTime := some ctx.now }
  let s3 := { s2 with localStore := { s2.localStore with sessionStartTime := some ctx.now } }
  let s4 := scopedSetBuffer ctx s3 none
  let s5 := saveSessionLimits ctx s4 { s.sessionLimits with messagesUsed := 0 }
  flushMessages ctx s5

/-! ## Spec-side decision table for the fallback generator

The spec describes the fallback as a pure function from a matched keyword
category and the session type to a quote pool. These definitions follow
the spec's words and are compared with `simulateInsightGeneration` above. -/

/-- The keyword categories of the spec's decision table. -/
inductive ICat where
  | stress
  | positive
  | work
  | general
deriving Repr, DecidableEq

/-- The spec's fixed-priority category decision: stress checked first,
then positive affect, then work, else general. -/
def specCategory (text : String) : ICat :=
  if strIncludes text "stress" || strIncludes text "anxious" ||
      strIncludes text "overwhelmed" then .stress
  else if strIncludes text "grateful" || strIncludes text "happy" ||
      strIncludes text "excited" then .positive
  else if strIncludes text "work" || strIncludes text "career" ||
      strIncludes text "job" then .work
  else .general

/-- The quote pool keyed by (matched category, session type). -/
def quotePool : ICat → SType → List String
  | .stress, ty => stressInsights ty
  | .positive, ty => positiveInsights ty
  | .work, ty => workInsights ty
  | .general, ty => generalInsights ty

/-! ## Backend stored procedure `complete_chat_session`

A relational model of the two tables the procedure touches. Uuids are
`Nat`; `auth.uid()` of an authenticated caller is a non-null uuid. -/

/-- A row of `chat_sessions` (the columns the procedure touches). -/
structure ChatSessionRow where
  id : Nat
  user_id : Option Nat
  type : String
  completed : Bool
  completed_at : Option Int := none
  insight_id : Option Nat := none
deriving Repr, DecidableEq

/-- A row of `insights` (the columns the procedure touches). -/
structure InsightRow where
  id : Nat
  session_id : Nat
  quote : String
  type : String
  scene_type : String
  is_pinned : Bool := false
deriving Repr, DecidableEq

/-- The database state: both tables plus the sequence feeding the
`insights.id` default. -/
structure DB where
  chat_sessions : List ChatSessionRow
  insights : List InsightRow
  next_insight_id : Nat
deriving Repr, DecidableEq

/-- The errors the procedure can raise: the explicit
`RAISE EXCEPTION 'Session not found or not authorized'`, and PostgreSQL
SQLSTATE 42702. -/
inductive SqlError where
  | notAuthorized
  | ambiguousColumnInsightId
deriving Repr, DecidableEq

/-- The procedure's success payload
`json_build_object('success', true, 'insight_id', ..., 'session_id', ...)`. -/
structure CompleteResult where
  success : Bool
  insight_id : Nat
  session_id : Nat
deriving Repr, DecidableEq

/-- `public.complete_chat_session(session_id, insight_quote, scene_type)`
under PostgreSQL semantics. The initial `SELECT ... INTO` leaves
`user_id` NULL when no row matches, so both the missing-row case and a
NULL or mismatched owner raise the authorization error. On the authorized
path the `INSERT INTO insights` runs, but the subsequent
`UPDATE chat_sessions SET ..., insight_id = insight_id` reads an
unqualified `insight_id` that could denote either the `chat_sessions`
column or the PL/pgSQL variable of the same name; under PL/pgSQL's default
`variable_conflict = error` this raises SQLSTATE 42702 at the statement,
aborting the transaction (the insert is rolled back), so the procedure
never reaches its success return. -/
def complete_chat_session (db : DB) (caller : Nat) (sid : Nat)
    (_insight_quote _scene_type : String) : Except SqlError (DB × CompleteResult) :=
  match db.chat_sessions.find? (fun r => r.id == sid) with
  | none => .error .notAuthorized
  | some row =>
      match row.user_id with
      | none => .error .notAuthorized
      | some uid =>
          if uid ≠ caller then .error .notAuthorized
          else .error .ambiguousColumnInsightId

/-- `complete_chat_session` under the *intended* name resolution (as if
`variable_conflict = use_variable`, i.e. the `UPDATE`'s RHS `insight_id`
denoted the PL/pgSQL variable): insert one insight row carrying the
session's type, mark the session completed at `now` with a link to the
new insight, and return the success object. -/
def complete_chat_session_intended (db : DB) (caller : Nat) (now : Int) (sid : Nat)
    (insight_quote scene_type : String) : Except SqlError (DB × CompleteResult) :=
  match db.chat_sessions.find? (fun r => r.id == sid) with
  | none => .error .notAuthorized
  | some row =>
      match row.user_id with
      | none => .error .notAuthorized
      | some uid =>
          if uid ≠ caller then .error .notAuthorized
          else
            let iid := db.next_insight_id
            let newInsight : InsightRow :=
              { id := iid, session_id := sid, quote := insight_quote, type := row.type,
                scene_type := scene_type, is_pinned := false }
            let db1 : DB :=
              { chat_sessions := db.chat_sessions.map (fun r =>
                  if r.id == sid then
                    { r with completed := true, completed_at := some now,
                             insight_id := some iid }
                  else r)
                insights := db.insights ++ [newInsight]
                next_insight_id := iid + 1 }
            .ok (db1, { success := true, insight_id := iid, session_id := sid })

/-! ## Helper lemmas -/

/-- Normal form of an unblocked send: the transcript gains the user
message and the assistant reply, `messagesUsed` is incremented, the
since-last-insight counter is incremented, and the offer flag is raised
exactly on multiples of five. -/
theorem handleSendMessage_unblocked (ctx : Ctx) (s : ControllerState) (content : String)
    (remote : Option String) (h : sendBlocked ctx s = false) :
    (handleSendMessage ctx s content remote).sessionLimits =
        { s.sessionLimits with messagesUsed := s.sessionLimits.messagesUsed + 1 } ∧
    (handleSendMessage ctx s content remote).messages =
        s.messages ++ [sentUserMessage ctx content, assistantReply ctx remote] ∧
    (handleSendMessage ctx s content remote).userMessagesSinceLastInsight =
        s.userMessagesSinceLastInsight + 1 ∧
    (handleSendMessage ctx s content remote).showGenerateInsightButton =
        (if (s.userMessagesSinceLastInsight + 1) % 5 = 0 then true
         else s.showGenerateInsightButton) := by
  cases hu : ctx.user <;> cases hg : ctx.isGuest <;>
    by_cases hn : s.sessionStartTime.isNone <;>
    by_cases h5 : (s.userMessagesSinceLastInsight + 1) % 5 = 0 <;>
    simp [handleSendMessage, h, hu, hg, hn, h5, flushMessages, saveSessionLimits,
      scopedSetLimits, scopedSetStart, scopedSetBuffer]

/-- A sample event context: a registered free-tier user, one hour of
session time, at instant 1,000,000. -/
def sampleCtx : Ctx :=
  { user := true, isGuest := false, isPro := false, now := 1000000, tlim := 60,
    greeting := "Good morning", sessionType := SType.morning }

/-- The synthetic greeting of the sample session. -/
def sampleGreeting : Message :=
  { id := "greeting", content := "Good morning", role := Role.assistant, timestamp := 400000 }

/-- A sample state whose free-tier message cap is exhausted. -/
def sampleStateCapped : ControllerState :=
  { messages := [sampleGreeting], isLoading := false, insightCard := none,
    sessionStartTime := some 500000, currentScene := "ocean",
    userMessagesSinceLastInsight := 4, showGenerateInsightButton := false,
    isGeneratingInsight := false,
    sessionLimits := { morningCompleted := false, eveningCompleted := false,
                       messagesUsed := 4, maxMessages := 4 },
    localStore := {}, sessionStore := {} }

/-- A sample state with two messages still available under the cap. -/
def sampleStateFresh : ControllerState :=
  { sampleStateCapped with
      userMessagesSinceLastInsight := 2,
      sessionLimits := { morningCompleted := false, eveningCompleted := false,
                         messagesUsed := 2, maxMessages := 4 } }

/-! ## C1 — send gating and the message cap -/

/-- **C1.** A send attempt while a reply is loading, or by a non-paid user
at the message cap, or while the session is expired, leaves the entire
controller state (transcript, counters, both storage scopes) unchanged,
for every possible remote outcome; and for non-paid sessions with the cap
at 4, `messagesUsed` never exceeds 4 across sends. -/
theorem claim1_send_gating_preserves_cap :
    (∀ (ctx : Ctx) (s : ControllerState) (content : String) (remote : Option String),
        s.isLoading = true ∨
          (ctx.isPro = false ∧
            s.sessionLimits.maxMessages ≤ s.sessionLimits.messagesUsed) ∨
          isSessionExpired ctx s = true →
        handleSendMessage ctx s content remote = s) ∧
    (∀ (ctx : Ctx) (s : ControllerState) (content : String) (remote : Option String),
        ctx.isPro = false → s.sessionLimits.maxMessages = 4 →
        s.sessionLimits.messagesUsed ≤ 4 →
        (handleSendMessage ctx s content remote).sessionLimits.messagesUsed ≤ 4) := by
  constructor
  · intro ctx s content remote h
    have hb : sendBlocked ctx s = true := by
      unfold sendBlocked
      rcases h with h | ⟨h1, h2⟩ | h
      · simp [h]
      · simp [h1, h2]
      · simp [h]
    simp [handleSendMessage, hb]
  · intro ctx s content remote hp hmax hle
    by_cases hb : sendBlocked ctx s = true
    · simpa [handleSendMessage, hb] using hle
    · have hb' : sendBlocked ctx s = false := by
        simpa using hb
      have hlt : s.sessionLimits.messagesUsed < 4 := by
        unfold sendBlocked at hb'
        simp [hp] at hb'
        omega
      rw [(handleSendMessage_unblocked ctx s content remote hb').1]
      simp only []
      omega

/-- Witness for C1: at the sample capped state the send is a no-op, and at
the fresh state the cap is preserved. -/
theorem claim1_witness :
    handleSendMessage sampleCtx sampleStateCapped "hello" none = sampleStateCapped ∧
    (handleSendMessage sampleCtx sampleStateFresh "hello" none).sessionLimits.messagesUsed ≤ 4 :=
  ⟨claim1_send_gating_preserves_cap.1 sampleCtx sampleStateCapped "hello" none
      (Or.inr (Or.inl ⟨rfl, by decide⟩)),
   claim1_send_gating_preserves_cap.2 sampleCtx sampleStateFresh "hello" none rfl
      (by decide) (by decide)⟩

/-! ## C5 — remote chat failure -/

/-- **C5.** When the remote chat call throws during an unblocked send, the
transcript gains exactly the optimistic user message followed by one
assistant message carrying the fixed apology text, and `messagesUsed`
keeps the increment performed before the call; the error is absorbed (the
handler totalizes the failure into the apology instead of propagating). -/
theorem claim5_remote_chat_failure :
    ∀ (ctx : Ctx) (s : ControllerState) (content : String),
      sendBlocked ctx s = false →
      (handleSendMessage ctx s content none).messages =
          s.messages ++ [sentUserMessage ctx content, assistantReply ctx none] ∧
      (assistantReply ctx none).role = Role.assistant ∧
      (assistantReply ctx none).content =
          "I\x27m having trouble connecting right now. Let\x27s try again in a moment." ∧
      (handleSendMessage ctx s content none).sessionLimits.messagesUsed =
          s.sessionLimits.messagesUsed + 1 := by
  intro ctx s content h
  have hnf := handleSendMessage_unblocked ctx s content none h
  refine ⟨hnf.2.1, rfl, rfl, ?_⟩
  rw [hnf.1]

/-- Witness for C5: the failing send at the sample fresh state. -/
theorem claim5_witness :
    (handleSendMessage sampleCtx sampleStateFresh "hi" none).messages =
        sampleStateFresh.messages ++
          [sentUserMessage sampleCtx "hi", assistantReply sampleCtx none] ∧
    (assistantReply sampleCtx none).role = Role.assistant ∧
    (assistantReply sampleCtx none).content =
        "I\x27m having trouble connecting right now. Let\x27s try again in a moment." ∧
    (handleSendMessage sampleCtx sampleStateFresh "hi" none).sessionLimits.messagesUsed =
        sampleStateFresh.sessionLimits.messagesUsed + 1 :=
  claim5_remote_chat_failure sampleCtx sampleStateFresh "hi" (by decide)

/-! ## C3 — view precedence on render -/

/-- A sample state in which both daily sessions were completed today. -/
def sampleStateBothDone : ControllerState :=
  { sampleStateCapped with
      sessionLimits := { morningCompleted := true, eveningCompleted := true,
                         messagesUsed := 4, maxMessages := 4,
                         lastMorningSession := some 500000,
                         lastEveningSession := some 600000 } }

/-- The sample context at a much later instant of the same day, so the
60-minute limit is exceeded. -/
def sampleCtxLate : Ctx :=
  { sampleCtx with now := 10000000 }

/-- **C3.** Whenever the LimitReached condition (registered user, non-paid
tier, both sessions completed today) holds, the render shows the
LimitReached view — the Expired view is unreachable; and when the elapsed
time exceeds the tier limit for a non-paid user with a started session and
LimitReached does not hold, the render shows the Expired view. -/
theorem claim3_limit_reached_supersedes_expired :
    (∀ (ctx : Ctx) (s : ControllerState),
        ctx.user = true → ctx.isPro = false → hasCompletedBothToday ctx s = true →
        renderView ctx s = ViewState.limitReached) ∧
    (∀ (ctx : Ctx) (s : ControllerState) (t : Int),
        ctx.isPro = false → s.sessionStartTime = some t →
        ctx.now - t > ctx.tlim * 60 * 1000 →
        ¬(ctx.user = true ∧ hasCompletedBothToday ctx s = true) →
        renderView ctx s = ViewState.expired) := by
  constructor
  · intro ctx s hu hp hb
    simp [renderView, hu, hp, hb]
  · intro ctx s t hp hst hgt hnl
    have hexp : isSessionExpired ctx s = true := by
      simp [isSessionExpired, hp, hst]
      exact hgt
    have hguard : (ctx.user && (!ctx.isPro && hasCompletedBothToday ctx s)) = false := by
      cases hu : ctx.user
      · simp
      · cases hbc : hasCompletedBothToday ctx s
        · simp [hbc]
        · exact absurd ⟨hu, hbc⟩ hnl
    simp only [renderView, Bool.and_assoc]
    rw [hguard]
    simp [hst, hexp]

/-- Witness for C3: LimitReached shown at the both-done sample state even
though its session is also over the time limit; Expired shown at the
fresh state at the late instant. -/
theorem claim3_witness :
    renderView sampleCtxLate sampleStateBothDone = ViewState.limitReached ∧
    renderView sampleCtxLate sampleStateFresh = ViewState.expired :=
  ⟨claim3_limit_reached_supersedes_expired.1 sampleCtxLate sampleStateBothDone rfl rfl
      (by decide),
   claim3_limit_reached_supersedes_expired.2 sampleCtxLate sampleStateFresh 500000 rfl rfl
      (by decide) (by decide)⟩

/-! ## C2 — the explicit new-session action -/

/-- A user message of the sample outgoing session. -/
def sampleUserMsg : Message :=
  { id := "700000", content := "hello", role := Role.user, timestamp := 700000 }

/-- A meaningful outgoing session (greeting plus one user message), with
no completion recorded yet for either session type. -/
def newSessionInput : ControllerState :=
  { messages := [sampleGreeting, sampleUserMsg], isLoading := false, insightCard := none,
    sessionStartTime := some 500000, currentScene := "ocean",
    userMessagesSinceLastInsight := 2, showGenerateInsightButton := false,
    isGeneratingInsight := false,
    sessionLimits := { morningCompleted := false, eveningCompleted := false,
                       messagesUsed := 2, maxMessages := 4 },
    localStore := {}, sessionStore := {} }

/-- **C2 (code bug).** The final `saveSessionLimits` of `handleNewSession`
spreads from the handler closure's `sessionLimits` — the *entry* value —
so the limits written moments earlier with the just-completed session
type's timestamp are immediately overwritten: for every invocation the
resulting limits are exactly the entry limits with `messagesUsed := 0`,
and the last-completed timestamp is never durably recorded. At the sample
morning invocation (registered user, transcript beyond the greeting) the
session *is* archived, the transcript *is* replaced by a fresh greeting
and a new timer *is* started, but `lastMorningSession` stays `none` in
both the component state and the persisted record. -/
theorem claim2_new_session_drops_completion_timestamp :
    (∀ (ctx : Ctx) (s : ControllerState),
        (handleNewSession ctx s).sessionLimits =
          { s.sessionLimits with messagesUsed := 0 }) ∧
    (handleNewSession sampleCtx newSessionInput).localStore.chatSessions.length = 1 ∧
    (handleNewSession sampleCtx newSessionInput).messages =
      [{ id := "greeting", content := "Good morning", role := Role.assistant,
         timestamp := 1000000 }] ∧
    (handleNewSession sampleCtx newSessionInput).sessionStartTime = some 1000000 ∧
    (handleNewSession sampleCtx newSessionInput).localStore.sessionStartTime = some 1000000 ∧
    (handleNewSession sampleCtx newSessionInput).sessionLimits.lastMorningSession = none ∧
    (handleNewSession sampleCtx newSessionInput).localStore.sessionLimits =
      some { morningCompleted := false, eveningCompleted := false,
             messagesUsed := 0, maxMessages := 4 } := by
  refine ⟨?_, by decide, by decide, by decide, by decide, by decide, by decide⟩
  intro ctx s
  cases hu : ctx.user <;> cases hg : ctx.isGuest <;>
    by_cases hl : s.messages.length > 1 <;>
    cases hty : ctx.sessionType <;>
    simp [handleNewSession, flushMessages, saveSessionLimits, scopedSetLimits,
      scopedSetSessions, scopedSetBuffer, hu, hg, hl, hty]

/-! ## C4 — the offer-insight flag -/

/-- `archiveCurrentSession` only touches the storage scopes: every
component-state field is preserved. -/
theorem archiveCurrentSession_frame (ctx : Ctx) (s : ControllerState) (sid : String)
    (iid : Option String) :
    (archiveCurrentSession ctx s sid iid).showGenerateInsightButton =
        s.showGenerateInsightButton ∧
    (archiveCurrentSession ctx s sid iid).userMessagesSinceLastInsight =
        s.userMessagesSinceLastInsight ∧
    (archiveCurrentSession ctx s sid iid).messages = s.messages ∧
    (archiveCurrentSession ctx s sid iid).sessionLimits = s.sessionLimits ∧
    (archiveCurrentSession ctx s sid iid).insightCard = s.insightCard := by
  cases hu : ctx.user <;> cases hg : ctx.isGuest <;>
    by_cases hl : s.messages.length ≤ 1 <;>
    simp [archiveCurrentSession, scopedSetSessions, hu, hg, hl]

/-- `generateInsightCard` never touches the offer flag, the
since-last-insight counter, the transcript or the limits. -/
theorem generateInsightCard_frame (ctx : Ctx) (s : ControllerState) (msgs : List Message)
    (rq : Option String) (seed : Nat) (vs : Option String) :
    (generateInsightCard ctx s msgs rq seed vs).showGenerateInsightButton =
        s.showGenerateInsightButton ∧
    (generateInsightCard ctx s msgs rq seed vs).userMessagesSinceLastInsight =
        s.userMessagesSinceLastInsight ∧
    (generateInsightCard ctx s msgs rq seed vs).messages = s.messages ∧
    (generateInsightCard ctx s msgs rq seed vs).sessionLimits = s.sessionLimits := by
  unfold generateInsightCard
  cases hu : ctx.user <;> cases hg : ctx.isGuest <;>
    simp [scopedSetInsights, hu, hg] <;>
    exact ⟨(archiveCurrentSession_frame ..).1, (archiveCurrentSession_frame ..).2.1,
      (archiveCurrentSession_frame ..).2.2.1, (archiveCurrentSession_frame ..).2.2.2.1⟩

/-- A sample active state with the offer flag raised after the fifth user
message. -/
def sampleStateFlagged : ControllerState :=
  { newSessionInput with
      userMessagesSinceLastInsight := 5, showGenerateInsightButton := true }

/-- **C4 counterexample.** The claim says the offer flag "resets to false
only on explicit user trigger of insight generation"; but the explicit
new-session action — which performs no insight generation — also resets
it: at a state with the flag raised, `handleNewSession` lowers it. -/
theorem claim4_counterexample :
    sampleStateFlagged.showGenerateInsightButton = true ∧
    (handleNewSession sampleCtx sampleStateFlagged).showGenerateInsightButton = false := by
  constructor
  · rfl
  · decide

/-- **C4 (amended).** The offer flag becomes true on a message send
exactly when the since-last-insight counter transitions to a (positive)
multiple of 5, and is otherwise left as it was (sticky); it resets to
false only on the explicit insight trigger or on the explicit new-session
action (which also resets the counter). On a successful trigger the flag
is lowered and the counter reset to 0; if generation fails, the flag is
restored to true and the counter is not reset, allowing a retry. -/
theorem claim4_offer_flag_discipline :
    (∀ (ctx : Ctx) (s : ControllerState) (content : String) (remote : Option String),
        sendBlocked ctx s = false →
        (handleSendMessage ctx s content remote).showGenerateInsightButton =
            (if (s.userMessagesSinceLastInsight + 1) % 5 = 0 then true
             else s.showGenerateInsightButton) ∧
        (handleSendMessage ctx s content remote).userMessagesSinceLastInsight =
            s.userMessagesSinceLastInsight + 1) ∧
    (∀ (ctx : Ctx) (s : ControllerState) (rq : Option String) (seed : Nat)
        (vs : Option String),
        (handleGenerateInsightClick ctx s (GenOutcome.ok rq seed vs)).showGenerateInsightButton
            = false ∧
        (handleGenerateInsightClick ctx s
            (GenOutcome.ok rq seed vs)).userMessagesSinceLastInsight = 0) ∧
    (∀ (ctx : Ctx) (s : ControllerState),
        (handleGenerateInsightClick ctx s GenOutcome.threw).showGenerateInsightButton = true ∧
        (handleGenerateInsightClick ctx s GenOutcome.threw).userMessagesSinceLastInsight =
            s.userMessagesSinceLastInsight) ∧
    (∀ (ctx : Ctx) (s : ControllerState),
        (handleNewSession ctx s).showGenerateInsightButton = false ∧
        (handleNewSession ctx s).userMessagesSinceLastInsight = 0) := by
  refine ⟨?_, ?_, ?_, ?_⟩
  · intro ctx s content remote h
    exact ⟨(handleSendMessage_unblocked ctx s content remote h).2.2.2,
      (handleSendMessage_unblocked ctx s content remote h).2.2.1⟩
  · intro ctx s rq seed vs
    unfold handleGenerateInsightClick
    exact ⟨(generateInsightCard_frame ..).1, rfl⟩
  · intro ctx s
    exact ⟨rfl, rfl⟩
  · intro ctx s
    cases hu : ctx.user <;> cases hg : ctx.isGuest <;>
      by_cases hl : s.messages.length > 1 <;>
      cases hty : ctx.sessionType <;>
      simp [handleNewSession, flushMessages, saveSessionLimits, scopedSetLimits,
        scopedSetSessions, scopedSetBuffer, hu, hg, hl, hty]

/-- Witness for C4 (amended): a send at the fourth-to-fifth transition at
the fresh sample state leaves the flag as it was (2 + 1 is not a multiple
of 5), and the failing trigger at the flagged state restores it. -/
theorem claim4_witness :
    (handleSendMessage sampleCtx sampleStateFresh "hey" (some "ok")).showGenerateInsightButton
        = (if (3 : Nat) % 5 = 0 then true else sampleStateFresh.showGenerateInsightButton) ∧
    (handleGenerateInsightClick sampleCtx sampleStateFlagged
        GenOutcome.threw).showGenerateInsightButton = true :=
  ⟨(claim4_offer_flag_discipline.1 sampleCtx sampleStateFresh "hey" (some "ok")
      (by decide)).1,
   (claim4_offer_flag_discipline.2.2.1 sampleCtx sampleStateFlagged).1⟩

/-! ## C6 — the 50-entry archive cap -/

/-- The cap combinator always keeps a suffix: dropping `length - 50` front
entries subsumes the un-capped case, where the subtraction is 0. -/
theorem appendCapped_eq_drop (l : List ArchivedChatSession) (x : ArchivedChatSession) :
    appendCapped l x = (l ++ [x]).drop ((l ++ [x]).length - 50) := by
  have hdef : appendCapped l x =
      if (l ++ [x]).length > 50 then (l ++ [x]).drop ((l ++ [x]).length - 50)
      else (l ++ [x]) := rfl
  rw [hdef]
  by_cases h : (l ++ [x]).length > 50
  · rw [if_pos h]
  · rw [if_neg h]
    have h0 : (l ++ [x]).length - 50 = 0 := by omega
    rw [h0, List.drop_zero]

/-- After capping, at most 50 entries remain. -/
theorem appendCapped_length_le (l : List ArchivedChatSession) (x : ArchivedChatSession) :
    (appendCapped l x).length ≤ 50 := by
  rw [appendCapped_eq_drop, List.length_drop]
  omega

/-- Reading back the scoped archive list right after writing it. -/
theorem scopedGetSessions_set (ctx : Ctx) (s : ControllerState)
    (v : List ArchivedChatSession) :
    scopedGetSessions ctx (scopedSetSessions ctx s v) = v := by
  cases hu : ctx.user <;> simp [scopedGetSessions, scopedSetSessions, hu]

/-- **C6.** Both archival paths append through the same cap: the resulting
list is always the suffix of `existing ++ [new]` obtained by evicting
front (oldest-appended) entries beyond 50, hence it never exceeds 50
entries; when the list is chronologically ordered by `createdAt`, every
evicted entry's `createdAt` is at most every surviving entry's. After the
insight-generation archival (registered user, meaningful transcript) and
after the new-session archival (registered or guest, meaningful
transcript), the scoped persisted list has at most 50 entries. -/
theorem claim6_archive_cap_fifo :
    (∀ (l : List ArchivedChatSession) (x : ArchivedChatSession),
        appendCapped l x = (l ++ [x]).drop ((l ++ [x]).length - 50) ∧
        (appendCapped l x).length ≤ 50) ∧
    (∀ (l : List ArchivedChatSession) (x : ArchivedChatSession),
        ((l ++ [x]).Pairwise fun a b => a.createdAt ≤ b.createdAt) →
        ∀ a ∈ (l ++ [x]).take ((l ++ [x]).length - 50),
        ∀ b ∈ appendCapped l x, a.createdAt ≤ b.createdAt) ∧
    (∀ (ctx : Ctx) (s : ControllerState) (sid : String) (iid : Option String),
        ctx.user = true → 1 < s.messages.length →
        (scopedGetSessions ctx (archiveCurrentSession ctx s sid iid)).length ≤ 50) ∧
    (∀ (ctx : Ctx) (s : ControllerState),
        ctx.user = true ∨ ctx.isGuest = true → 1 < s.messages.length →
        (scopedGetSessions ctx (handleNewSession ctx s)).length ≤ 50) := by
  refine ⟨fun l x => ⟨appendCapped_eq_drop l x, appendCapped_length_le l x⟩, ?_, ?_, ?_⟩
  · intro l x hp a ha b hb
    rw [appendCapped_eq_drop] at hb
    have hsplit := List.take_append_drop ((l ++ [x]).length - 50) (l ++ [x])
    rw [← hsplit] at hp
    exact (List.pairwise_append.mp hp).2.2 a ha b hb
  · intro ctx s sid iid hu hl
    have hnl : ¬s.messages.length ≤ 1 := by omega
    simp [archiveCurrentSession, hu, hnl, scopedGetSessions_set, appendCapped_length_le]
  · intro ctx s hug hl
    have hbool : (ctx.user || ctx.isGuest) = true := by
      rcases hug with h | h <;> simp [h]
    cases hu : ctx.user <;> cases hg : ctx.isGuest <;>
      (try simp [hu, hg] at hbool) <;>
      cases hty : ctx.sessionType <;>
      simp [handleNewSession, flushMessages, saveSessionLimits, scopedSetLimits,
        scopedSetSessions, scopedSetBuffer, scopedGetSessions, hu, hg, hty, hl,
        appendCapped_length_le]

/-- Witness for C6: the capped length after the sample new-session
archival, via the last conjunct at the sample input. -/
theorem claim6_witness :
    (scopedGetSessions sampleCtx (handleNewSession sampleCtx newSessionInput)).length ≤ 50 :=
  claim6_archive_cap_fifo.2.2.2 sampleCtx newSessionInput (Or.inl rfl) (by decide)

/-! ## C7 — the local fallback generator -/

/-- Picking at `seed % length` lands inside any non-empty pool. -/
theorem getD_mem_of_ne_nil (l : List String) (n : Nat) (h : l ≠ []) :
    l.getD (n % l.length) "" ∈ l := by
  have hlen : 0 < l.length := List.length_pos.mpr h
  have hlt : n % l.length < l.length := Nat.mod_lt _ hlen
  rw [List.getD_eq_getElem _ _ hlt]
  exact List.getElem_mem hlt

/-- Every quote pool of the fallback is non-empty. -/
theorem quotePool_ne_nil (cat : ICat) (ty : SType) : quotePool cat ty ≠ [] := by
  cases cat <;> cases ty <;>
    simp [quotePool, stressInsights, positiveInsights, workInsights, generalInsights]

/-- The nested keyword cascade of `simulateInsightGeneration` equals the
spec's decision-table form: pick from the pool keyed by the matched
category and the session type. -/
theorem simulate_eq_pool (msgs : List Message) (ty : SType) (seed : Nat) :
    simulateInsightGeneration msgs ty seed =
      pickQuote seed (quotePool (specCategory (conversationTextOf msgs)) ty) := by
  unfold simulateInsightGeneration specCategory quotePool
  by_cases h1 : (strIncludes (conversationTextOf msgs) "stress" ||
      strIncludes (conversationTextOf msgs) "anxious" ||
      strIncludes (conversationTextOf msgs) "overwhelmed") = true
  · simp [h1]
  · by_cases h2 : (strIncludes (conversationTextOf msgs) "grateful" ||
        strIncludes (conversationTextOf msgs) "happy" ||
        strIncludes (conversationTextOf msgs) "excited") = true
    · simp [h1, h2]
    · by_cases h3 : (strIncludes (conversationTextOf msgs) "work" ||
          strIncludes (conversationTextOf msgs) "career" ||
          strIncludes (conversationTextOf msgs) "job") = true
      · simp [h1, h2, h3]
      · simp [h1, h2, h3]

/-- **C7.** The fallback is the pure decision table of the spec: it
lower-cases and space-joins the user-authored contents, matches the
keyword groups in fixed priority (stress before positive affect before
work, general as catch-all), and returns the seed-indexed quote of the
matched pool; every pool is non-empty, so it always returns a quote of
the matched pool (it is a total function of the messages, session type
and seed, hence deterministic for a fixed seed and never throws). -/
theorem claim7_fallback_generator :
    (∀ (msgs : List Message) (ty : SType) (seed : Nat),
        simulateInsightGeneration msgs ty seed =
          pickQuote seed (quotePool (specCategory (conversationTextOf msgs)) ty)) ∧
    (∀ (cat : ICat) (ty : SType), quotePool cat ty ≠ []) ∧
    (∀ (msgs : List Message) (ty : SType) (seed : Nat),
        simulateInsightGeneration msgs ty seed ∈
          quotePool (specCategory (conversationTextOf msgs)) ty) ∧
    (∀ text : String,
        (strIncludes text "stress" || strIncludes text "anxious" ||
          strIncludes text "overwhelmed") = true →
        specCategory text = ICat.stress) ∧
    (∀ text : String,
        (strIncludes text "stress" || strIncludes text "anxious" ||
          strIncludes text "overwhelmed") = false →
        (strIncludes text "grateful" || strIncludes text "happy" ||
          strIncludes text "excited") = true →
        specCategory text = ICat.positive) ∧
    (∀ text : String,
        (strIncludes text "stress" || strIncludes text "anxious" ||
          strIncludes text "overwhelmed") = false →
        (strIncludes text "grateful" || strIncludes text "happy" ||
          strIncludes text "excited") = false →
        (strIncludes text "work" || strIncludes text "career" ||
          strIncludes text "job") = true →
        specCategory text = ICat.work) ∧
    (∀ text : String,
        (strIncludes text "stress" || strIncludes text "anxious" ||
          strIncludes text "overwhelmed") = false →
        (strIncludes text "grateful" || strIncludes text "happy" ||
          strIncludes text "excited") = false →
        (strIncludes text "work" || strIncludes text "career" ||
          strIncludes text "job") = false →
        specCategory text = ICat.general) := by
  refine ⟨simulate_eq_pool, quotePool_ne_nil, ?_, ?_, ?_, ?_, ?_⟩
  · intro msgs ty seed
    rw [simulate_eq_pool]
    exact getD_mem_of_ne_nil _ _ (quotePool_ne_nil _ _)
  · intro text h1
    simp [specCategory, h1]
  · intro text h1 h2
    simp [specCategory, h1, h2]
  · intro text h1 h2 h3
    simp [specCategory, h1, h2, h3]
  · intro text h1 h2 h3
    simp [specCategory, h1, h2, h3]

/-- Witness for C7: the text "too much work stress" matches both the
stress and the work group; stress wins by priority, and the generated
quote is a member of the morning stress pool. -/
theorem claim7_witness :
    specCategory "too much work stress" = ICat.stress ∧
    simulateInsightGeneration
        [{ id := "1", content := "too much work stress", role := Role.user,
           timestamp := 0 }] SType.morning 1 ∈
      quotePool
        (specCategory (conversationTextOf
          [{ id := "1", content := "too much work stress", role := Role.user,
             timestamp := 0 }])) SType.morning :=
  ⟨claim7_fallback_generator.2.2.2.1 "too much work stress" (by decide),
   claim7_fallback_generator.2.2.1
     [{ id := "1", content := "too much work stress", role := Role.user, timestamp := 0 }]
     SType.morning 1⟩

/-! ## C8 — the `complete_chat_session` stored procedure -/

/-- A one-session database owned by uuid 7. -/
def sampleDB : DB :=
  { chat_sessions := [{ id := 1, user_id := some 7, type := "morning", completed := false }],
    insights := [], next_insight_id := 100 }

/-- **C8 (code bug).** The authorization half of the claim holds: a
missing session row or a mismatched owner raises the authorization error.
But the success half never executes: on the owner-authorized path the
procedure raises SQLSTATE 42702 ("column reference insight_id is
ambiguous") at its `UPDATE`, because the unqualified RHS `insight_id`
could denote either the `chat_sessions.insight_id` column or the
PL/pgSQL variable, and PL/pgSQL's default `variable_conflict = error`
refuses it — so no insight row survives and no success object is
returned. Under the intended resolution (RHS = the variable) the claim's
success behavior holds, as the last conjunct shows. -/
theorem claim8_complete_chat_session :
    (∀ (db : DB) (caller sid : Nat) (q sc : String),
        db.chat_sessions.find? (fun r => r.id == sid) = none →
        complete_chat_session db caller sid q sc = Except.error SqlError.notAuthorized) ∧
    complete_chat_session sampleDB 8 1 "quote" "ocean" =
        Except.error SqlError.notAuthorized ∧
    complete_chat_session sampleDB 7 2 "quote" "ocean" =
        Except.error SqlError.notAuthorized ∧
    complete_chat_session sampleDB 7 1 "quote" "ocean" =
        Except.error SqlError.ambiguousColumnInsightId ∧
    complete_chat_session_intended sampleDB 7 999 1 "quote" "ocean" =
        Except.ok
          ({ chat_sessions := [{ id := 1, user_id := some 7, type := "morning",
                                 completed := true, completed_at := some 999,
                                 insight_id := some 100 }],
             insights := [{ id := 100, session_id := 1, quote := "quote", type := "morning",
                            scene_type := "ocean", is_pinned := false }],
             next_insight_id := 101 },
           { success := true, insight_id := 100, session_id := 1 }) := by
  refine ⟨?_, rfl, rfl, rfl, rfl⟩
  intro db caller sid q sc h
  unfold complete_chat_session
  rw [h]

/-- Witness for C8's quantified conjunct: the empty database has no row
for session 5, and the call is rejected as unauthorized. -/
theorem claim8_witness :
    complete_chat_session { chat_sessions := [], insights := [], next_insight_id := 0 }
        7 5 "q" "ocean" = Except.error SqlError.notAuthorized :=
  claim8_complete_chat_session.1
    { chat_sessions := [], insights := [], next_insight_id := 0 } 7 5 "q" "ocean" rfl

/-! ## C9 — guest insight generation never archives -/

/-- **C9.** Under a guest identity (`user = false`, `isGuest = true`),
`archiveCurrentSession` returns its input state unchanged, and over the
whole insight-generation path the new card is appended to the scoped
(session-storage) insight list while both archived-session lists, the
limits record and both persisted limits keys are left untouched. -/
theorem claim9_guest_insight_no_archive :
    (∀ (ctx : Ctx) (s : ControllerState) (sid : String) (iid : Option String),
        ctx.user = false → archiveCurrentSession ctx s sid iid = s) ∧
    (∀ (ctx : Ctx) (s : ControllerState) (msgs : List Message) (rq : Option String)
        (seed : Nat) (vs : Option String),
        ctx.user = false → ctx.isGuest = true →
        (generateInsightCard ctx s msgs rq seed vs).sessionStore.insightCards.length =
            s.sessionStore.insightCards.length + 1 ∧
        (generateInsightCard ctx s msgs rq seed vs).localStore.insightCards =
            s.localStore.insightCards ∧
        (generateInsightCard ctx s msgs rq seed vs).localStore.chatSessions =
            s.localStore.chatSessions ∧
        (generateInsightCard ctx s msgs rq seed vs).sessionStore.chatSessions =
            s.sessionStore.chatSessions ∧
        (generateInsightCard ctx s msgs rq seed vs).sessionLimits = s.sessionLimits ∧
        (generateInsightCard ctx s msgs rq seed vs).localStore.sessionLimits =
            s.localStore.sessionLimits ∧
        (generateInsightCard ctx s msgs rq seed vs).sessionStore.sessionLimits =
            s.sessionStore.sessionLimits) := by
  constructor
  · intro ctx s sid iid hu
    simp [archiveCurrentSession, hu]
  · intro ctx s msgs rq seed vs hu hg
    have harch : ∀ (s' : ControllerState) (sid : String) (iid : Option String),
        archiveCurrentSession ctx s' sid iid = s' := by
      intro s' sid iid
      simp [archiveCurrentSession, hu]
    simp [generateInsightCard, scopedSetInsights, scopedGetInsights, hu, hg, harch]

/-- Witness for C9: insight generation at a guest state (local fallback,
seed 0, no captured frame) stores one card in session storage and leaves
all archives untouched. -/
theorem claim9_witness :
    (generateInsightCard { sampleCtx with user := false, isGuest := true }
        newSessionInput [sampleUserMsg] none 0 none).sessionStore.insightCards.length =
      newSessionInput.sessionStore.insightCards.length + 1 ∧
    (generateInsightCard { sampleCtx with user := false, isGuest := true }
        newSessionInput [sampleUserMsg] none 0 none).sessionStore.chatSessions =
      newSessionInput.sessionStore.chatSessions :=
  ⟨(claim9_guest_insight_no_archive.2 { sampleCtx with user := false, isGuest := true }
      newSessionInput [sampleUserMsg] none 0 none rfl rfl).1,
   (claim9_guest_insight_no_archive.2 { sampleCtx with user := false, isGuest := true }
      newSessionInput [sampleUserMsg] none 0 none rfl rfl).2.2.2.1⟩

/-! ## C10 — the new-session start-time write bypasses the scoped adapter -/

/-- **C10.** `handleNewSession` writes the new start time directly to the
durable (`localStorage`) scope for every identity; for a guest identity
the ephemeral scope's `session-start-time` key is untouched, so the
scoped adapter's subsequent read still returns the old value. -/
theorem claim10_new_session_start_time_scope :
    (∀ (ctx : Ctx) (s : ControllerState),
        (handleNewSession ctx s).localStore.sessionStartTime = some ctx.now) ∧
    (∀ (ctx : Ctx) (s : ControllerState),
        ctx.user = false →
        (handleNewSession ctx s).sessionStore.sessionStartTime =
            s.sessionStore.sessionStartTime ∧
        scopedGetStart ctx (handleNewSession ctx s) = s.sessionStore.sessionStartTime) := by
  constructor
  · intro ctx s
    cases hu : ctx.user <;> cases hg : ctx.isGuest <;>
      by_cases hl : s.messages.length > 1 <;>
      cases hty : ctx.sessionType <;>
      simp [handleNewSession, flushMessages, saveSessionLimits, scopedSetLimits,
        scopedSetSessions, scopedSetBuffer, hu, hg, hl, hty]
  · intro ctx s hu
    cases hg : ctx.isGuest <;>
      by_cases hl : s.messages.length > 1 <;>
      cases hty : ctx.sessionType <;>
      simp [handleNewSession, flushMessages, saveSessionLimits, scopedSetLimits,
        scopedSetSessions, scopedSetBuffer, scopedGetStart, hu, hg, hl, hty]

/-- Witness for C10: under the sample guest identity, the new-session
action leaves the ephemeral start-time key as it was, and the scoped read
does not observe the new start time. -/
theorem claim10_witness :
    (handleNewSession { sampleCtx with user := false, isGuest := true }
        newSessionInput).sessionStore.sessionStartTime =
      newSessionInput.sessionStore.sessionStartTime ∧
    scopedGetStart { sampleCtx with user := false, isGuest := true }
        (handleNewSession { sampleCtx with user := false, isGuest := true }
          newSessionInput) =
      newSessionInput.sessionStore.sessionStartTime :=
  claim10_new_session_start_time_scope.2
    { sampleCtx with user := false, isGuest := true } newSessionInput rfl

end Komorebi
